import Mathlib

/-!
Shallow embedding of the call classification and metrics core of the
liam_reporting repository, together with proofs settling the frozen claims.

Sources embedded:
- src/core/lib/classify_call.js      (rule-based fallback classifier)
- src/scripts/enrich.js              (LLM batch classification + override chain)
- src/core/lib/store_enrichment.js   (classification store, merge-on-write)
- src/unnamed/part_001               (routing-status resolver + statistics)

Modelling conventions:
- JS optional/missing fields are Option; `undefined` and `null` are both none.
- JS string truthiness (empty string is falsy) is modelled by jsTruthy.
- JSON string payloads that the source pipes through JSON.parse are modelled
  as already-parsed values with an explicit malformed constructor standing
  for a parse failure (the source catches the throw).
- Timestamps that the source turns into Date objects and subtracts are
  modelled directly as epoch milliseconds (Option Int).
- Durations and statistics are exact rationals; JS Math.round x is
  modelled as the floor of x + 1/2, which is what Math.round computes.
-/

/-- JS truthiness for an optional string: undefined, null and the empty
string are falsy, every other string is truthy. -/
def jsTruthy : Option String → Bool
  | some s => !(s == "")
  | none => false

/-- Models the JS expression a || b for strings, where b is a string
literal: returns a when truthy, otherwise b. -/
def jsOrStr (a : Option String) (b : String) : String :=
  match a with
  | some s => if s == "" then b else s
  | none => b

/-- Models the JS expression a || b for two optional strings: the first
truthy value, otherwise b. -/
def jsOrOpt (a b : Option String) : Option String :=
  match a with
  | some s => if s == "" then b else some s
  | none => b

/-- Models the JS coercion x || null used when copying classification
fields: undefined, null and the empty string all become null. -/
def jsNull (a : Option String) : Option String :=
  match a with
  | some s => if s == "" then none else some s
  | none => none

/-- Boolean check that the first list is an initial segment of the second. -/
def leadsWith [BEq α] : List α → List α → Bool
  | [], _ => true
  | _ :: _, [] => false
  | a :: as, b :: bs => a == b && leadsWith as bs

/-- Boolean check that needle occurs contiguously inside the list. -/
def hasSub (needle : List Char) : List Char → Bool
  | [] => leadsWith needle []
  | c :: rest => leadsWith needle (c :: rest) || hasSub needle rest

/-- Models JS String.prototype.toLowerCase via per-character lowercasing
(ASCII, which covers every phrase and category label the source compares). -/
def jsToLower (s : String) : String := String.mk (s.toList.map Char.toLower)

/-- Models JS String.prototype.includes (substring containment). -/
def jsIncludes (hay needle : String) : Bool :=
  hasSub needle.toList hay.toList

/-! ## Call record data model (the fields the embedded core reads) -/

/-- The parsed form of a transfer tool-call argument payload.  The source
stores the payload as a JSON string and calls JSON.parse on it; malformed
stands for a payload whose parse throws. -/
inductive ToolArgs
  | malformed
  | fields (destination intent department queue : Option String)
deriving DecidableEq, Repr

/-- One tool invocation function: name plus raw argument payload. -/
structure ToolFunctionRec where
  name : Option String := none
  arguments : Option ToolArgs := none
deriving DecidableEq, Repr

/-- One entry of a toolCalls array. -/
structure ToolCallRec where
  function : Option ToolFunctionRec := none
deriving DecidableEq, Repr

/-- One entry of a call message log. -/
structure MessageRec where
  role : Option String := none
  message : Option String := none
  toolCalls : Option (List ToolCallRec) := none
deriving DecidableEq, Repr

/-- A success-evaluation object: the two fields the classifiers read. -/
structure SuccessEval where
  call_success : Option String := none
  final_outcome : Option String := none
deriving DecidableEq, Repr

/-- The analysis.successEvaluation field: it may arrive as a JSON string,
in which case the source parses it and ignores a parse failure; malformed
stands for an unparseable string. -/
inductive SuccessEvalField
  | malformed
  | parsed (ev : SuccessEval)
deriving DecidableEq, Repr

/-- One structured output value: the classifiers read its name and whether
its result is the boolean true. -/
structure StructuredOutput where
  name : Option String := none
  result : Option Bool := none
deriving DecidableEq, Repr

/-- The analysis.artifact object; structuredOutputs is a JS object mapping
keys to structured outputs, modelled as an association list in insertion
order. -/
structure ArtifactRec where
  structuredOutputs : Option (List (String × StructuredOutput)) := none
deriving DecidableEq, Repr

/-- The call.analysis object. -/
structure AnalysisRec where
  artifact : Option ArtifactRec := none
  successEvaluation : Option SuccessEvalField := none
deriving DecidableEq, Repr

/-- The call.destination object read by the transfer rule. -/
structure DestinationRec where
  description : Option String := none
  number : Option String := none
deriving DecidableEq, Repr

/-- One raw call record, restricted to the fields the embedded core reads.
startedAtMs and endedAtMs model the startedAt and endedAt timestamps as
epoch milliseconds (the source only ever subtracts the two Dates). -/
structure CallRecord where
  id : String := ""
  createdAt : Option String := none
  startedAtMs : Option Int := none
  endedAtMs : Option Int := none
  duration : Option ℚ := none
  endedReason : Option String := none
  transcript : Option String := none
  summary : Option String := none
  messages : Option (List MessageRec) := none
  toolCalls : Option (List ToolCallRec) := none
  analysis : Option AnalysisRec := none
  destination : Option DestinationRec := none
deriving DecidableEq, Repr

/-! ## Shared duration and transfer-intent helpers (src/unnamed/part_001
lines 574-611; classify_call.js lines 4-9 duplicate getCallDuration
verbatim). -/

/-- The transfer tool names recognised by the pipeline
(TRANSFER_TOOL_NAMES in part_001 and the same three literals inline in
classify_call.js and enrich.js). -/
def isTransferTool (t : ToolCallRec) : Bool :=
  (t.function.bind (fun f => f.name)) == some "intent_transfer" ||
  (t.function.bind (fun f => f.name)) == some "transfer_intent" ||
  (t.function.bind (fun f => f.name)) == some "transferCall"

/-- getCallDuration: prefer the explicit duration field; when it is falsy
and both timestamps exist, compute (endedAt - startedAt) in seconds;
otherwise 0. -/
def getCallDuration (call : CallRecord) : ℚ :=
  let duration : ℚ := match call.duration with
    | some d => d
    | none => 0
  if duration == 0 then
    match call.startedAtMs, call.endedAtMs with
    | some s, some e => ((e - s : Int) : ℚ) / 1000
    | _, _ => 0
  else duration

/-- Models args.destination || args.intent || args.department || args.queue
|| null from getTransferIntent. -/
def toolArgsIntent : ToolArgs → Option String
  | ToolArgs.malformed => none
  | ToolArgs.fields d i dep q => jsOrOpt d (jsOrOpt i (jsOrOpt dep (jsOrOpt q none)))

/-- The message-scanning half of getTransferIntent: for each message with a
toolCalls array, find a transfer tool; when its arguments are present and
parse, return the extracted intent (which the source returns even when it
is null); on a parse failure or missing arguments continue scanning. -/
def getTransferIntentFromMessages : List MessageRec → Option String
  | [] => none
  | m :: rest =>
    match m.toolCalls with
    | none => getTransferIntentFromMessages rest
    | some tcs =>
      match tcs.find? isTransferTool with
      | some t =>
        match t.function.bind (fun f => f.arguments) with
        | some (ToolArgs.fields d i dep q) => toolArgsIntent (ToolArgs.fields d i dep q)
        | _ => getTransferIntentFromMessages rest
      | none => getTransferIntentFromMessages rest

/-- getTransferIntent (part_001): scan the top-level toolCalls array for a
transfer tool and return its parsed intent; on a parse failure or missing
arguments fall through to scanning the message log. -/
def getTransferIntent (call : CallRecord) : Option String :=
  let fromTop : Option (Option String) :=
    match call.toolCalls with
    | some tcs =>
      match tcs.find? isTransferTool with
      | some t =>
        match t.function.bind (fun f => f.arguments) with
        | some (ToolArgs.fields d i dep q) => some (toolArgsIntent (ToolArgs.fields d i dep q))
        | _ => none
      | none => none
    | none => none
  match fromTop with
  | some r => r
  | none =>
    match call.messages with
    | some msgs => getTransferIntentFromMessages msgs
    | none => none

/-! ## Rule-based fallback classifier (src/core/lib/classify_call.js) -/

/-- The shape of a classified result object from classifyCall.  The source
object literals always carry category, bookingStatus and transferReason and
never set hangupType or spamType; the latter two are kept as fields so that
reading them (a JS property access yielding undefined) is expressible. -/
structure RuleClassification where
  category : String
  bookingStatus : String
  transferReason : Option String
  hangupType : Option String := none
  spamType : Option String := none
deriving DecidableEq, Repr

/-- Result of classifyCall: a classification object or the sentinel object
with needs_analysis set. -/
inductive RuleResult
  | classified (c : RuleClassification)
  | needsAnalysis
deriving DecidableEq, Repr

/-- Category of a rule result, when classified. -/
def ruleCategory : RuleResult → Option String
  | RuleResult.classified c => some c.category
  | RuleResult.needsAnalysis => none

/-- transferReason of a rule result, when classified. -/
def ruleTransferReason : RuleResult → Option String
  | RuleResult.classified c => c.transferReason
  | RuleResult.needsAnalysis => none

/-- spamType of a rule result, when classified (the source never sets this
key, so it is none on every classified object). -/
def ruleSpamType : RuleResult → Option String
  | RuleResult.classified c => c.spamType
  | RuleResult.needsAnalysis => none

/-- Rule 3 structured-output check: scan Object.values of
analysis.artifact.structuredOutputs for an output named "Appointment
Booked" whose result is exactly true. -/
def structuredBookedRule (call : CallRecord) : Bool :=
  match (call.analysis.bind (fun a => a.artifact)).bind (fun a => a.structuredOutputs) with
  | some sos =>
    (((sos.map Prod.snd).find? (fun o => o.name == some "Appointment Booked")).bind
      (fun o => o.result)) == some true
  | none => false

/-- Rule 3b Vapi success-evaluation check (classify_call.js): success when
call_success is "yes" or the final outcome mentions booked or scheduled;
parse failures are ignored. -/
def vapiSuccessRule (call : CallRecord) : Bool :=
  match call.analysis.bind (fun a => a.successEvaluation) with
  | some (SuccessEvalField.parsed ev) =>
    ev.call_success == some "yes" ||
    (match ev.final_outcome with
     | some fo => jsIncludes (jsToLower fo) "booked" || jsIncludes (jsToLower fo) "scheduled"
     | none => false)
  | _ => false

/-- Rule 4 confirmation-phrase check over the transcript joined with all
assistant messages, lowercased. -/
def hasConfirmationPhraseRule (call : CallRecord) : Bool :=
  let transcript := jsOrStr call.transcript ""
  let msgs := call.messages.getD []
  let fullText := transcript ++ " " ++
    String.intercalate " " ((msgs.filter (fun m => m.role == some "assistant")).map
      (fun m => m.message.getD ""))
  let lowerText := jsToLower fullText
  jsIncludes lowerText "appointment is confirmed for" ||
  jsIncludes lowerText "consultation is confirmed for" ||
  jsIncludes lowerText "your appointment is confirmed" ||
  jsIncludes lowerText "your consultation is confirmed"

/-- Transfer-destination extraction of classify_call.js (rules 4/5 region,
lines 83-128): check the top-level toolCalls array first; a transfer tool
whose arguments fail to parse (including missing arguments, since
JSON.parse(undefined) throws) yields the sentinel "Unknown Destination".
When the result so far is falsy, scan the message log for a message with
role "tool_calls" or containing a transfer tool.  (When such a message is
found its toolCalls array is read; a message matched by role alone with no
toolCalls array would make the source throw, modelled here as an empty
array.) -/
def ruleTransferDestination (call : CallRecord) : Option String :=
  let fromTool : ToolCallRec → Option String := fun t =>
    match t.function.bind (fun f => f.arguments) with
    | some (ToolArgs.fields d _ _ _) => d
    | _ => some "Unknown Destination"
  let td1 : Option String :=
    match call.toolCalls with
    | some tcs =>
      match tcs.find? isTransferTool with
      | some t => fromTool t
      | none => none
    | none => none
  if jsTruthy td1 then td1 else
    match call.messages with
    | some msgs =>
      match msgs.find? (fun m =>
          m.role == some "tool_calls" ||
          (match m.toolCalls with
           | some tcs => tcs.any isTransferTool
           | none => false)) with
      | some msg =>
        match (msg.toolCalls.getD []).find? isTransferTool with
        | some t => fromTool t
        | none => td1
      | none => td1
    | none => td1

/-- classifyCall (src/core/lib/classify_call.js): the rule-based fallback
classifier, a decision list evaluated top to bottom, first match wins. -/
def classifyCall (call : CallRecord) : RuleResult :=
  let duration := getCallDuration call
  if duration < 5 then
    RuleResult.classified
      { category := "spam", bookingStatus := "none", transferReason := some "short-abandoned" }
  else if call.endedReason == some "assistant-forwarded-call" then
    let destination := jsOrStr (call.destination.bind (fun d => d.description))
      (jsOrStr (call.destination.bind (fun d => d.number)) "unknown-destination")
    RuleResult.classified
      { category := "transferred", bookingStatus := "none", transferReason := some destination }
  else if structuredBookedRule call || hasConfirmationPhraseRule call || vapiSuccessRule call then
    RuleResult.classified
      { category := "booking-success", bookingStatus := "booking-success",
        transferReason := some "none" }
  else
    let td := ruleTransferDestination call
    if jsTruthy td && !(call.endedReason == some "assistant-forwarded-call") then
      RuleResult.classified
        { category := "hangup", bookingStatus := "none",
          transferReason := some ("hung-up-during-transfer-to-" ++ td.getD "") }
    else if call.endedReason == some "customer-ended-call" then
      RuleResult.classified
        { category := "hangup", bookingStatus := "none", transferReason := some "customer-hung-up" }
    else if call.endedReason == some "assistant-ended-call" then
      RuleResult.needsAnalysis
    else
      RuleResult.needsAnalysis

/-! ## Enrichment records (shape shared by src/scripts/enrich.js output and
src/core/lib/store_enrichment.js / part_001 input). -/

/-- The classification object persisted per call by enrich.js.  category is
pushed through unchanged from the (untrusted) model object and so may be
absent; the three sub-type fields are pushed through x || null. -/
structure FinalClassification where
  category : Option String
  hangupType : Option String
  transferReason : Option String
  spamType : Option String
  bookingStatus : String
deriving DecidableEq, Repr

/-- One enrichment record as pushed by enrich.js and persisted by
saveEnrichments (callId, createdAt, enrichedAt, model, classification). -/
structure Enrichment where
  callId : String
  createdAt : Option String
  enrichedAt : String
  model : String
  classification : FinalClassification
deriving DecidableEq, Repr

/-! ## Routing-status resolver and metrics (src/unnamed/part_001). -/

/-- hasCustomerSpeech (part_001 lines 808-817): some message with role
"user" whose text contains a word character (the regex match on the
trimmed string succeeds exactly when a word character occurs at all;
JS word characters are ASCII letters, digits and underscore). -/
def hasCustomerSpeech (call : CallRecord) : Bool :=
  match call.messages with
  | some msgs => msgs.any (fun m =>
      m.role == some "user" &&
      (match m.message with
       | some s => s.toList.any (fun c => c.isAlphanum || c == '_')
       | none => false))
  | none => false

/-- isSpamLikelyShortNoSpeech (part_001 lines 819-821). -/
def isSpamLikelyShortNoSpeech (call : CallRecord) (durationSeconds : ℚ) : Bool :=
  durationSeconds ≤ 10 && !hasCustomerSpeech call

/-- The five-way priority chain of processCalls (part_001 lines 675-687)
that assigns each call its routing status. -/
def routingStatusOf (endedReason : Option String) (transferAttempted spamLikely : Bool)
    (category : String) : String :=
  if endedReason == some "assistant-forwarded-call" then "routed"
  else if transferAttempted && endedReason == some "customer-ended-call" then "hangup-before-route"
  else if spamLikely then "spam-likely"
  else if category == "spam" then "spam"
  else "not-routed"

/-- One processed call as built by processCalls, restricted to the
decision-relevant fields (the email and summary presentation fields of the
source record are not modelled). -/
structure ProcessedCall where
  callId : String
  createdAt : Option String
  endedReason : Option String
  category : String
  hangupType : Option String
  transferReason : Option String
  spamType : Option String
  duration : ℚ
  transferIntent : Option String
  routingStatus : String
  routed : Bool
  transferAttempted : Bool
  intentIdentified : Bool
  notRouted : Bool
  hangupBeforeRoute : Bool
  spamLikely : Bool
deriving DecidableEq, Repr

/-- The per-call body of processCalls (part_001 lines 651-713).  The
enrichment map is the store contents keyed by call id; a stored enrichment
always carries its classification object (the source additionally guards
against a record without one). -/
def processCall (emap : List (String × Enrichment)) (call : CallRecord) : ProcessedCall :=
  let enrichment := emap.lookup call.id
  let duration := getCallDuration call
  let transferIntent := getTransferIntent call
  let spamLikely := isSpamLikelyShortNoSpeech call duration
  let category := match enrichment with
    | some e => jsToLower (jsOrStr e.classification.category "unknown")
    | none => "unknown"
  let hangupType := match enrichment with
    | some e => jsNull e.classification.hangupType
    | none => none
  let transferReason := match enrichment with
    | some e => jsNull e.classification.transferReason
    | none => none
  let spamType := match enrichment with
    | some e => jsNull e.classification.spamType
    | none => none
  let transferAttempted := jsTruthy transferIntent
  let intentIdentified := jsTruthy transferIntent || jsTruthy transferReason
  let routingStatus := routingStatusOf call.endedReason transferAttempted spamLikely category
  { callId := call.id
    createdAt := call.createdAt
    endedReason := call.endedReason
    category := category
    hangupType := hangupType
    transferReason := transferReason
    spamType := spamType
    duration := duration
    transferIntent := transferIntent
    routingStatus := routingStatus
    routed := routingStatus == "routed"
    transferAttempted := transferAttempted
    intentIdentified := intentIdentified
    notRouted := routingStatus == "not-routed"
    hangupBeforeRoute := routingStatus == "hangup-before-route"
    spamLikely := spamLikely }

/-- processCalls (part_001 lines 650-714). -/
def processCalls (calls : List CallRecord) (emap : List (String × Enrichment)) :
    List ProcessedCall :=
  calls.map (processCall emap)

/-- The routing-status counting slice of computeMetrics (part_001 lines
716-732): the five per-status counts, the total, and the sanity-check sum
accountedFor compared against the total (the remaining metrics fields of
computeMetrics are duration statistics and presentation data). -/
structure RoutingCounts where
  totalCalls : ℕ
  spamCalls : ℕ
  spamLikelyCalls : ℕ
  routedCalls : ℕ
  notRoutedCalls : ℕ
  hangupBeforeRoute : ℕ
  accountedFor : ℕ
deriving DecidableEq, Repr

/-- computeMetrics routing counts (part_001 lines 716-732). -/
def computeRoutingCounts (calls : List CallRecord) (emap : List (String × Enrichment)) :
    RoutingCounts :=
  let processedCalls := processCalls calls emap
  let spamCalls := (processedCalls.filter (fun c => c.routingStatus == "spam")).length
  let spamLikelyCalls := (processedCalls.filter (fun c => c.routingStatus == "spam-likely")).length
  let routedCalls := (processedCalls.filter (fun c => c.routingStatus == "routed")).length
  let notRoutedCalls := (processedCalls.filter (fun c => c.routingStatus == "not-routed")).length
  let hangupBeforeRoute :=
    (processedCalls.filter (fun c => c.routingStatus == "hangup-before-route")).length
  { totalCalls := processedCalls.length
    spamCalls := spamCalls
    spamLikelyCalls := spamLikelyCalls
    routedCalls := routedCalls
    notRoutedCalls := notRoutedCalls
    hangupBeforeRoute := hangupBeforeRoute
    accountedFor := routedCalls + notRoutedCalls + hangupBeforeRoute + spamLikelyCalls + spamCalls }

/-! ## Statistics aggregator (src/unnamed/part_001 lines 613-628). -/

/-- Ascending insertion of one value into a sorted list (the comparator of
the source sort is numeric ascending). -/
def insertAsc (x : ℚ) : List ℚ → List ℚ
  | [] => [x]
  | y :: ys => if x ≤ y then x :: y :: ys else y :: insertAsc x ys

/-- Ascending numeric sort, models [...values].sort((a, b) => a - b). -/
def sortAsc (l : List ℚ) : List ℚ := l.foldr insertAsc []

/-- percentile (part_001 lines 613-618): sort ascending, take index
ceil(pct/100 times n) - 1 clamped to the valid range; 0 on an empty list. -/
def percentile (values : List ℚ) (pct : ℚ) : ℚ :=
  if values.isEmpty then 0 else
  let sorted := sortAsc values
  let n : ℤ := sorted.length
  let rank : ℤ := ⌈pct / 100 * (n : ℚ)⌉ - 1
  let idx : ℤ := max 0 (min rank (n - 1))
  sorted.getD idx.toNat 0

/-- Models JS Math.round on an exact rational: the floor of x + 1/2. -/
def jsRound (q : ℚ) : ℚ := ((⌊q + 1 / 2⌋ : ℤ) : ℚ)

/-- The avg, median, p90 record of computeDurationStats. -/
structure DurationStats where
  avg : ℚ
  median : ℚ
  p90 : ℚ
deriving DecidableEq, Repr

/-- computeDurationStats (part_001 lines 620-628). -/
def computeDurationStats (values : List ℚ) : DurationStats :=
  if values.isEmpty then { avg := 0, median := 0, p90 := 0 } else
  { avg := jsRound ((values.foldl (· + ·) 0) / (values.length : ℚ))
    median := percentile values 50
    p90 := percentile values 90 }

/-! ## LLM-assisted classifier batch and override chain
(src/scripts/enrich.js classifyCallsBatch). -/

/-- Duration as computed for the per-call metadata in classifyCallsBatch
(enrich.js lines 78-80): Math.round of the timestamp difference in seconds
when both timestamps exist, otherwise 0. -/
def enrichDuration (call : CallRecord) : ℤ :=
  match call.endedAtMs, call.startedAtMs with
  | some e, some s => Int.fdiv (e - s + 500) 1000
  | _, _ => 0

/-- The success-evaluation half of the appointment-booked feature
(enrich.js lines 120-128): call_success is "yes" AND the lowercased final
outcome mentions an appointment or consultation AND a scheduled, confirmed
or booked term AND does not mention "transferred". -/
def successEvalBooked (ev : SuccessEval) : Bool :=
  let finalOutcome := jsToLower (jsOrStr ev.final_outcome "")
  ev.call_success == some "yes" &&
  (jsIncludes finalOutcome "appointment" || jsIncludes finalOutcome "consultation") &&
  (jsIncludes finalOutcome "scheduled" || jsIncludes finalOutcome "confirmed" ||
    jsIncludes finalOutcome "booked") &&
  !(jsIncludes finalOutcome "transferred")

/-- The appointment-booked feature of classifyCallsBatch (enrich.js lines
102-129): the structured output keyed "Appointment Booked" has result true,
or the parsed success evaluation satisfies successEvalBooked (a parse
failure leaves an empty object, which satisfies nothing). -/
def enrichAppointmentBooked (call : CallRecord) : Bool :=
  let fromStructured :=
    match (call.analysis.bind (fun a => a.artifact)).bind (fun a => a.structuredOutputs) with
    | some sos => ((sos.lookup "Appointment Booked").bind (fun o => o.result)) == some true
    | none => false
  let fromEval :=
    match call.analysis.bind (fun a => a.successEvaluation) with
    | some (SuccessEvalField.parsed ev) => successEvalBooked ev
    | _ => false
  fromStructured || fromEval

/-- The per-call metadata classifyCallsBatch derives before calling the
model (the transcript, summary and transfer hint entries only feed the
prompt text and are not needed by the override chain). -/
structure CallMeta where
  duration : ℤ
  endedReason : String
  appointmentBooked : Bool
deriving DecidableEq, Repr

/-- callSummaries entry (enrich.js lines 77-141, decision-relevant part). -/
def callMeta (call : CallRecord) : CallMeta :=
  { duration := enrichDuration call
    endedReason := jsOrStr call.endedReason "unknown"
    appointmentBooked := enrichAppointmentBooked call }

/-- One per-call object of the model response.  All fields are untrusted
and may be absent. -/
structure GptCallResult where
  callId : Option String := none
  category : Option String := none
  hangupType : Option String := none
  transferReason : Option String := none
  spamType : Option String := none
deriving DecidableEq, Repr

/-- The parsed model response: a JSON object whose calls array may be
missing (any other shape degrades every call to the default unknown
object). -/
structure GptResult where
  calls : Option (List GptCallResult) := none
deriving DecidableEq, Repr

/-- The default classification used when a call id is missing from the
model response (enrich.js lines 173-178). -/
def defaultUnknownGpt : GptCallResult :=
  { callId := none, category := some "unknown", hangupType := none,
    transferReason := none, spamType := none }

/-- The per-call model result: find the entry whose callId matches, or the
default unknown object (enrich.js lines 173-178). -/
def gptLookup (result : GptResult) (call : CallRecord) : GptCallResult :=
  ((result.calls.getD []).find? (fun c => c.callId == some call.id)).getD defaultUnknownGpt

/-- Override 1 (enrich.js lines 182-191): when the appointment-booked flag
is set and the model category is not booking-completed, replace the whole
classification with booking-completed and null sub-fields. -/
def override1 (meta : CallMeta) (c : GptCallResult) : GptCallResult :=
  if meta.appointmentBooked && !(c.category == some "booking-completed") then
    { callId := none, category := some "booking-completed", hangupType := none,
      transferReason := none, spamType := none }
  else c

/-- Override 2 (enrich.js lines 193-228): when the category is unknown,
re-derive it from endedReason and duration. -/
def override2 (meta : CallMeta) (c : GptCallResult) : GptCallResult :=
  if c.category == some "unknown" then
    if meta.endedReason == "assistant-forwarded-call" then
      { callId := none, category := some "transferred", hangupType := none,
        transferReason := some "other", spamType := none }
    else if meta.endedReason == "customer-ended-call" ||
        meta.endedReason == "silence-timed-out" then
      if meta.duration < 10 then
        { callId := none, category := some "spam", hangupType := none,
          transferReason := none, spamType := some "short-call" }
      else
        { callId := none, category := some "hangup",
          hangupType := some (if meta.duration < 30 then "low-value" else "moderate"),
          transferReason := none, spamType := none }
    else c
  else c

/-- The enrichment object pushed per call (enrich.js lines 230-243):
sub-type fields are coerced with x || null and bookingStatus is derived
from whether the category starts with "booking". -/
def finalizeEnrichment (now : String) (call : CallRecord) (c : GptCallResult) : Enrichment :=
  { callId := call.id
    createdAt := call.createdAt
    enrichedAt := now
    model := "gpt-4o-mini"
    classification :=
      { category := c.category
        hangupType := jsNull c.hangupType
        transferReason := jsNull c.transferReason
        spamType := jsNull c.spamType
        bookingStatus :=
          match c.category with
          | some s => if s.startsWith "booking" then "booking-attempt" else "none"
          | none => "none" } }

/-- The whole per-call pipeline of the successfully-parsed-response path of
classifyCallsBatch: model lookup, Override 1, Override 2, push. -/
def perCallEnrich (now : String) (result : GptResult) (call : CallRecord) : Enrichment :=
  finalizeEnrichment now call (override2 (callMeta call) (override1 (callMeta call) (gptLookup result call)))

/-- classifyCallsBatch when the request succeeds and its response parses
(enrich.js lines 155-246): every call of the batch is classified through
the model result and the override chain. -/
def classifyCallsBatchParsed (now : String) (calls : List CallRecord) (result : GptResult) :
    List Enrichment :=
  calls.map (perCallEnrich now result)

/-- classifyCallsBatch when the request throws (enrich.js lines 248-265,
the catch branch): every call degrades to category unknown with null
sub-fields and bookingStatus none; note that this return bypasses the
override chain entirely. -/
def classifyCallsBatchFallback (now : String) (calls : List CallRecord) : List Enrichment :=
  calls.map (fun call =>
    { callId := call.id
      createdAt := call.createdAt
      enrichedAt := now
      model := "gpt-4o-mini"
      classification :=
        { category := some "unknown", hangupType := none, transferReason := none,
          spamType := none, bookingStatus := "none" } })

/-! ## Classification store (src/core/lib/store_enrichment.js). -/

/-- JS object key assignment obj[k] = v: replace the value at an existing
key in place, otherwise append the new key at the end. -/
def setKey (m : List (String × α)) (k : String) (v : α) : List (String × α) :=
  match m with
  | [] => [(k, v)]
  | (k1, v1) :: rest => if k1 == k then (k1, v) :: rest else (k1, v1) :: setKey rest k v

/-- JS object spread merge (the source line 91, merged =
dot-dot-dot existing, dot-dot-dot enrichmentData): insert every entry of
the second object into the first in order, overwriting by key. -/
def spreadMerge (a b : List (String × α)) : List (String × α) :=
  b.foldl (fun acc kv => setKey acc kv.1 kv.2) a

/-- Models format(new Date(createdAt), 'yyyy-MM-dd') on an ISO timestamp
string: its leading date part.  (The source formats in the local timezone;
the timezone conversion is file-naming plumbing outside the claims.) -/
def dateKeyOf (createdAt : String) : String := String.mk (createdAt.toList.take 10)

/-- One daily enrichment file: a JSON object mapping call id to record.
The record written is the spread of callId and a fresh enrichedAt under
the enrichment itself, whose own fields always win, so it is the
enrichment. -/
def DayFile := List (String × Enrichment)

/-- The store: daily file name key (date key) to file contents. -/
def Store := List (String × List (String × Enrichment))

/-- One step of the grouping loop of saveEnrichments (store_enrichment.js
lines 58-77): file one enrichment under its date key and call id, or skip
it with a warning when its createdAt is falsy (missing, null or empty). -/
def groupStep (acc : List (String × List (String × Enrichment))) (e : Enrichment) :
    List (String × List (String × Enrichment)) :=
  match e.createdAt with
  | none => acc
  | some ca =>
    if ca == "" then acc
    else
      let dk := dateKeyOf ca
      let day := (acc.lookup dk).getD []
      setKey acc dk (setKey day e.callId e)

/-- The grouping loop of saveEnrichments: group the batch into per-date
objects keyed by call id, skipping every enrichment without a truthy
createdAt. -/
def groupByDate (enrichments : List Enrichment) :
    List (String × List (String × Enrichment)) :=
  enrichments.foldl groupStep []

/-- The write loop of saveEnrichments (store_enrichment.js lines 80-100):
for each date group, merge into the existing daily file contents with new
entries overwriting old ones, and count the new entries.  Returns the new
store and the totalSaved count. -/
def saveEnrichments (enrichments : List Enrichment)
    (store : List (String × List (String × Enrichment))) :
    (List (String × List (String × Enrichment))) × ℕ :=
  (groupByDate enrichments).foldl (fun acc dkv =>
    let existing := (acc.1.lookup dkv.1).getD []
    let merged := spreadMerge existing dkv.2
    (setKey acc.1 dkv.1 merged, acc.2 + dkv.2.length)) (store, 0)

/-! ## Concrete inputs used by counterexamples and witnesses. -/

/-- A 3-second call with no messages and nothing else set. -/
def cShortSilent : CallRecord := { id := "c7", duration := some 3 }

/-- The structured outputs object holding a confirmed Appointment Booked
result. -/
def bookedOutputs : List (String × StructuredOutput) :=
  [("Appointment Booked", { name := some "Appointment Booked", result := some true })]

/-- A 180-second customer-ended call whose structured outputs confirm a
booking. -/
def cBookedHangup : CallRecord :=
  { id := "c6", duration := some 180, endedReason := some "customer-ended-call",
    analysis := some { artifact := some { structuredOutputs := some bookedOutputs } } }

/-! ## Claim C7 — the short-call spam rule. -/

/-- C7 counterexample: on a 3-second call the rule-based classifier does
return category spam, but it writes the marker "short-abandoned" into
transferReason and never sets a spamType field, so the claimed shape
(spam_type = "short-abandoned", transfer_reason null) is false. -/
theorem classify_short_call_counterexample :
    ruleCategory (classifyCall cShortSilent) = some "spam" ∧
    ruleSpamType (classifyCall cShortSilent) = none ∧
    ruleTransferReason (classifyCall cShortSilent) = some "short-abandoned" ∧
    ruleSpamType (classifyCall cShortSilent) ≠ some "short-abandoned" ∧
    ruleTransferReason (classifyCall cShortSilent) ≠ none := by
  decide

/-- C7 amended: every call whose computed duration is below 5 seconds is
classified category spam with bookingStatus none and the marker
"short-abandoned" stored in transferReason; no spamType (and no
hangupType) field is set. -/
theorem classify_short_call_amended (call : CallRecord) (h : getCallDuration call < 5) :
    classifyCall call = RuleResult.classified
      { category := "spam", bookingStatus := "none",
        transferReason := some "short-abandoned" } := by
  simp [classifyCall, h]

/-- Witness for classify_short_call_amended at the 3-second silent call. -/
theorem classify_short_call_amended_witness :
    getCallDuration cShortSilent < 5 ∧
    classifyCall cShortSilent = RuleResult.classified
      { category := "spam", bookingStatus := "none",
        transferReason := some "short-abandoned" } :=
  ⟨by decide, classify_short_call_amended cShortSilent (by decide)⟩

/-! ## Claim C6 — booking check fires before the hangup rule. -/

/-- C6 counterexample: on the booked-then-hung-up call the rule-based
classifier fires the booking rule before the hangup rule, but the category
label it returns is "booking-success", not the claimed
"booking-completed". -/
theorem classify_booking_counterexample :
    ruleCategory (classifyCall cBookedHangup) = some "booking-success" ∧
    ruleCategory (classifyCall cBookedHangup) ≠ some "booking-completed" ∧
    ruleCategory (classifyCall cBookedHangup) ≠ some "hangup" := by
  decide

/-- C6 amended: every customer-ended call with a confirmed Appointment
Booked structured output and duration 180 is classified by the booking
rule (which precedes the hangup rule) as category "booking-success" — the
rule-based classifier's label for a completed booking — and not hangup. -/
theorem classify_booking_before_hangup_amended (call : CallRecord)
    (h1 : call.endedReason = some "customer-ended-call")
    (h2 : structuredBookedRule call = true)
    (h3 : getCallDuration call = 180) :
    classifyCall call = RuleResult.classified
      { category := "booking-success", bookingStatus := "booking-success",
        transferReason := some "none" } := by
  have hd : ¬ (getCallDuration call < 5) := by rw [h3]; norm_num
  have hr : (call.endedReason == some "assistant-forwarded-call") = false := by
    rw [h1]; decide
  simp [classifyCall, hd, hr, h2]

/-- Witness for classify_booking_before_hangup_amended at the concrete
booked-then-hung-up call. -/
theorem classify_booking_before_hangup_amended_witness :
    getCallDuration cBookedHangup = 180 ∧ structuredBookedRule cBookedHangup = true ∧
    classifyCall cBookedHangup = RuleResult.classified
      { category := "booking-success", bookingStatus := "booking-success",
        transferReason := some "none" } :=
  ⟨by decide, by decide,
    classify_booking_before_hangup_amended cBookedHangup rfl (by decide) (by decide)⟩

/-! ## Claim C3 — percentile and duration statistics. -/

/-- Sorting the example duration list leaves it unchanged. -/
theorem sortAsc_example : sortAsc [5, 10, 15, 20, 100] = [5, 10, 15, 20, 100] := by
  norm_num [sortAsc, insertAsc]

/-- The 50th percentile of the example list. -/
theorem percentile_ex_50 : percentile [5, 10, 15, 20, 100] 50 = 15 := by
  have hc : (⌈(5 : ℚ) / 2⌉ : ℤ) = 3 := by
    rw [Int.ceil_eq_iff]
    norm_num
  simp only [percentile, sortAsc_example]
  norm_num [hc]
  rfl

/-- The 90th percentile of the example list. -/
theorem percentile_ex_90 : percentile [5, 10, 15, 20, 100] 90 = 100 := by
  have hc : (⌈(9 : ℚ) / 2⌉ : ℤ) = 5 := by
    rw [Int.ceil_eq_iff]
    norm_num
  simp only [percentile, sortAsc_example]
  norm_num [hc]
  rfl

/-- The 100th percentile of the example list. -/
theorem percentile_ex_100 : percentile [5, 10, 15, 20, 100] 100 = 100 := by
  simp only [percentile, sortAsc_example]
  norm_num
  rfl

/-- Percentile of the empty list is 0. -/
theorem percentile_ex_empty : percentile [] 50 = 0 := by norm_num [percentile]

/-- Duration statistics of the empty list are all 0. -/
theorem stats_ex_empty : computeDurationStats [] = { avg := 0, median := 0, p90 := 0 } := by
  norm_num [computeDurationStats]

/-- Duration statistics of the example list. -/
theorem stats_ex :
    computeDurationStats [5, 10, 15, 20, 100] = { avg := 30, median := 15, p90 := 100 } := by
  norm_num [computeDurationStats, jsRound, percentile_ex_50, percentile_ex_90]

/-- C3: percentile sorts ascending and takes index ceil(p/100 times n) - 1
clamped to the valid range; on [5,10,15,20,100] the 50th percentile is 15
and the 90th and 100th are 100, and on the empty list every statistic
(avg, median, p90) is 0. -/
theorem percentile_spec_values :
    percentile [] 50 = 0 ∧
    computeDurationStats [] = { avg := 0, median := 0, p90 := 0 } ∧
    percentile [5, 10, 15, 20, 100] 50 = 15 ∧
    percentile [5, 10, 15, 20, 100] 90 = 100 ∧
    percentile [5, 10, 15, 20, 100] 100 = 100 ∧
    computeDurationStats [5, 10, 15, 20, 100] = { avg := 30, median := 15, p90 := 100 } :=
  ⟨percentile_ex_empty, stats_ex_empty, percentile_ex_50, percentile_ex_90,
    percentile_ex_100, stats_ex⟩

/-! ## Claim C1 — the routing-status partition invariant. -/

/-- The resolver priority chain always lands in one of the five states. -/
theorem routingStatusOf_mem (er : Option String) (ta sl : Bool) (cat : String) :
    routingStatusOf er ta sl cat = "routed" ∨ routingStatusOf er ta sl cat = "not-routed" ∨
    routingStatusOf er ta sl cat = "hangup-before-route" ∨
    routingStatusOf er ta sl cat = "spam-likely" ∨ routingStatusOf er ta sl cat = "spam" := by
  unfold routingStatusOf
  split_ifs <;> simp

/-- Every processed call carries one of the five routing states. -/
theorem processCall_status_mem (emap : List (String × Enrichment)) (call : CallRecord) :
    (processCall emap call).routingStatus = "routed" ∨
    (processCall emap call).routingStatus = "not-routed" ∨
    (processCall emap call).routingStatus = "hangup-before-route" ∨
    (processCall emap call).routingStatus = "spam-likely" ∨
    (processCall emap call).routingStatus = "spam" := by
  simp only [processCall]
  exact routingStatusOf_mem _ _ _ _

/-- Counting helper: when every element is in one of the five states, the
five per-state filter counts sum to the length. -/
theorem count_partition (l : List ProcessedCall)
    (h : ∀ c ∈ l, c.routingStatus = "routed" ∨ c.routingStatus = "not-routed" ∨
      c.routingStatus = "hangup-before-route" ∨ c.routingStatus = "spam-likely" ∨
      c.routingStatus = "spam") :
    (l.filter (fun c => c.routingStatus == "routed")).length +
    (l.filter (fun c => c.routingStatus == "not-routed")).length +
    (l.filter (fun c => c.routingStatus == "hangup-before-route")).length +
    (l.filter (fun c => c.routingStatus == "spam-likely")).length +
    (l.filter (fun c => c.routingStatus == "spam")).length = l.length := by
  induction l with
  | nil => simp
  | cons a t ih =>
    have ha := h a (List.mem_cons_self a t)
    have iht := ih (fun c hc => h c (List.mem_cons_of_mem a hc))
    rcases ha with h1 | h1 | h1 | h1 | h1 <;> simp [List.filter_cons, h1] <;> omega

/-- C1: every processed call is assigned exactly one routing status drawn
from the five tags, and the five per-status counts of computeMetrics sum
exactly to the total call count — the five buckets partition the call set
with no overlap and no omission, for every call set and enrichment map. -/
theorem routing_status_partition (calls : List CallRecord) (emap : List (String × Enrichment)) :
    ((processCalls calls emap).all (fun c =>
      ["routed", "not-routed", "hangup-before-route", "spam", "spam-likely"].contains
        c.routingStatus)) = true ∧
    (computeRoutingCounts calls emap).accountedFor = (computeRoutingCounts calls emap).totalCalls ∧
    (computeRoutingCounts calls emap).totalCalls = calls.length := by
  refine ⟨?_, ?_, ?_⟩
  · rw [List.all_eq_true]
    intro c hc
    obtain ⟨call, hcall, rfl⟩ := List.mem_map.mp hc
    rcases processCall_status_mem emap call with h | h | h | h | h <;> simp [h]
  · simp only [computeRoutingCounts]
    exact count_partition _ (fun c hc => by
      obtain ⟨call, hcall, rfl⟩ := List.mem_map.mp hc
      exact processCall_status_mem emap call)
  · simp [computeRoutingCounts, processCalls]

/-! ## Claim C9 — short silent calls and resolver priority. -/

/-- A 3-second call with no messages that ended by assistant forwarding. -/
def cForwarded3 : CallRecord :=
  { id := "c9a", duration := some 3, endedReason := some "assistant-forwarded-call" }

/-- A transfer tool invocation to the sales destination. -/
def transferToolFunction : ToolFunctionRec :=
  { name := some "transferCall",
    arguments := some (ToolArgs.fields (some "sales") none none none) }

/-- The tool-call wrapper of transferToolFunction. -/
def transferToolCall : ToolCallRec := { function := some transferToolFunction }

/-- A 3-second customer-ended call with no messages but a top-level
transfer tool invocation. -/
def cToolHangup3 : CallRecord :=
  { id := "c9b", duration := some 3, endedReason := some "customer-ended-call",
    toolCalls := some [transferToolCall] }

/-- C9 counterexample: two calls with duration 3 and no messages on which
the classifier does return spam but the resolver does not return
spam-likely — a forwarded call resolves to routed and a customer-ended
call with a transfer tool invocation resolves to hangup-before-route,
because both of those resolver checks precede the spam-likely check. -/
theorem short_silent_counterexample :
    ruleCategory (classifyCall cForwarded3) = some "spam" ∧
    (processCall [] cForwarded3).routingStatus = "routed" ∧
    (processCall [] cForwarded3).routingStatus ≠ "spam-likely" ∧
    ruleCategory (classifyCall cToolHangup3) = some "spam" ∧
    (processCall [] cToolHangup3).routingStatus = "hangup-before-route" ∧
    (processCall [] cToolHangup3).routingStatus ≠ "spam-likely" := by
  decide

/-- C9 amended: every call with computed duration 3, no messages, no
top-level transfer tool invocation and an ended reason other than
assistant-forwarded-call is classified spam by rule 1 of the rule-based
classifier, while the routing-status resolver assigns spam-likely (never
spam), whatever enrichment classification is stored — the spam-likely
check precedes the classification-based spam check in resolver priority. -/
theorem short_silent_spam_likely_amended (call : CallRecord)
    (emap : List (String × Enrichment))
    (h1 : getCallDuration call = 3)
    (h2 : call.messages = none ∨ call.messages = some [])
    (h3 : (call.toolCalls.getD []).find? isTransferTool = none)
    (h4 : call.endedReason ≠ some "assistant-forwarded-call") :
    classifyCall call = RuleResult.classified
      { category := "spam", bookingStatus := "none",
        transferReason := some "short-abandoned" } ∧
    (processCall emap call).routingStatus = "spam-likely" := by
  have hlt : getCallDuration call < 5 := by rw [h1]; norm_num
  have hti : getTransferIntent call = none := by
    unfold getTransferIntent
    rcases htc : call.toolCalls with _ | tcs
    · rcases h2 with h2 | h2 <;> simp [h2, getTransferIntentFromMessages]
    · rw [htc] at h3
      simp only [Option.getD_some] at h3
      rcases h2 with h2 | h2 <;> simp [h2, h3, getTransferIntentFromMessages]
  have hsl : isSpamLikelyShortNoSpeech call (getCallDuration call) = true := by
    unfold isSpamLikelyShortNoSpeech hasCustomerSpeech
    rw [h1]
    rcases h2 with h2 | h2 <;> simp [h2] <;> norm_num
  have her : (call.endedReason == some "assistant-forwarded-call") = false :=
    beq_eq_false_iff_ne.mpr h4
  constructor
  · simp [classifyCall, hlt]
  · simp [processCall, routingStatusOf, hti, hsl, her, jsTruthy]

/-- A 3-second customer-ended call with nothing else set. -/
def cShortSilentW : CallRecord :=
  { id := "c9w", duration := some 3, endedReason := some "customer-ended-call" }

/-- Witness for short_silent_spam_likely_amended at a concrete short
silent customer-ended call. -/
theorem short_silent_spam_likely_amended_witness :
    getCallDuration cShortSilentW = 3 ∧
    cShortSilentW.endedReason ≠ some "assistant-forwarded-call" ∧
    classifyCall cShortSilentW = RuleResult.classified
      { category := "spam", bookingStatus := "none",
        transferReason := some "short-abandoned" } ∧
    (processCall [] cShortSilentW).routingStatus = "spam-likely" := by
  refine ⟨by decide, by decide, ?_⟩
  have h := short_silent_spam_likely_amended cShortSilentW []
    (by decide) (Or.inl rfl) (by decide) (by decide)
  exact ⟨h.1, h.2⟩

/-! ## Claim C2 — Override A and the booking flag. -/

/-- A call whose structured outputs confirm a booking and nothing else. -/
def cBooked : CallRecord :=
  { id := "cb1",
    analysis := some { artifact := some { structuredOutputs := some bookedOutputs } } }

/-- A model response that already says booking-completed but carries a
stray non-null spamType. -/
def gptBookedSpamType : GptCallResult :=
  { callId := some "cb1", category := some "booking-completed", spamType := some "robocall" }

/-- The wrapped model response for gptBookedSpamType. -/
def gptResultBad : GptResult := { calls := some [gptBookedSpamType] }

/-- C2 counterexample: a booked call whose model response already has
category booking-completed with a non-null spamType keeps that spamType —
Override A fires only when the model category differs, so the final
classification is not all-null as claimed. -/
theorem booking_override_counterexample :
    enrichAppointmentBooked cBooked = true ∧
    ((classifyCallsBatchParsed "t0" [cBooked] gptResultBad).map
      (fun e => e.classification.category)) = [some "booking-completed"] ∧
    ((classifyCallsBatchParsed "t0" [cBooked] gptResultBad).map
      (fun e => e.classification.spamType)) = [some "robocall"] ∧
    some "robocall" ≠ (none : Option String) := by
  decide

/-- C2 amended: in a successfully parsed batch, every call with the
appointment-booked feature ends with category booking-completed whatever
category the model returned (even spam), and whenever the model category
was not booking-completed all three sub-type fields are cleared to null;
when the model already said booking-completed its sub-type fields are
passed through. -/
theorem booking_override_amended (now : String) (result : GptResult)
    (calls : List CallRecord) (call : CallRecord) (hmem : call ∈ calls)
    (hb : enrichAppointmentBooked call = true) :
    perCallEnrich now result call ∈ classifyCallsBatchParsed now calls result ∧
    (perCallEnrich now result call).classification.category = some "booking-completed" ∧
    ((gptLookup result call).category ≠ some "booking-completed" →
      (perCallEnrich now result call).classification.hangupType = none ∧
      (perCallEnrich now result call).classification.transferReason = none ∧
      (perCallEnrich now result call).classification.spamType = none) := by
  refine ⟨List.mem_map_of_mem _ hmem, ?_, ?_⟩
  · by_cases hc : (gptLookup result call).category = some "booking-completed"
    · simp [perCallEnrich, override1, override2, finalizeEnrichment, callMeta, hb, hc]
    · simp [perCallEnrich, override1, override2, finalizeEnrichment, callMeta, hb, hc]
  · intro hc
    simp [perCallEnrich, override1, override2, finalizeEnrichment, callMeta, hb, hc, jsNull]

/-- A model response classifying the booked call as spam. -/
def gptSpamForBooked : GptCallResult :=
  { callId := some "cb1", category := some "spam", spamType := some "robocall" }

/-- The wrapped model response for gptSpamForBooked. -/
def gptResultSpam : GptResult := { calls := some [gptSpamForBooked] }

/-- Witness for booking_override_amended: a booked call that the model
called spam ends booking-completed with all sub-type fields null. -/
theorem booking_override_amended_witness :
    enrichAppointmentBooked cBooked = true ∧
    (perCallEnrich "t0" gptResultSpam cBooked).classification.category =
      some "booking-completed" ∧
    (perCallEnrich "t0" gptResultSpam cBooked).classification.hangupType = none ∧
    (perCallEnrich "t0" gptResultSpam cBooked).classification.transferReason = none ∧
    (perCallEnrich "t0" gptResultSpam cBooked).classification.spamType = none := by
  have h := booking_override_amended "t0" gptResultSpam [cBooked] cBooked
    (List.mem_singleton.mpr rfl) (by decide)
  have hsub := h.2.2 (by decide)
  exact ⟨by decide, h.2.1, hsub.1, hsub.2.1, hsub.2.2⟩

/-! ## Claim C4 — total request failure and Override B. -/

/-- A one-minute forwarded call in a batch whose model request fails. -/
def cForwardedFail : CallRecord :=
  { id := "c4", createdAt := some "2026-02-02T10:00:00.000Z",
    endedReason := some "assistant-forwarded-call",
    startedAtMs := some 0, endedAtMs := some 60000 }

/-- C4: on total request failure the catch branch returns category unknown
with null sub-fields for every call and bypasses the override chain, so
the forwarded call stays unknown even though Override B (which the claim
and the repository documentation say then runs) would classify this very
call as transferred with transferReason other. -/
theorem unknown_degradation_code_bug :
    ((classifyCallsBatchFallback "t1" [cForwardedFail]).map
      (fun e => e.classification.category)) = [some "unknown"] ∧
    ((classifyCallsBatchFallback "t1" [cForwardedFail]).map
      (fun e => e.classification.transferReason)) = [none] ∧
    (override2 (callMeta cForwardedFail) defaultUnknownGpt).category = some "transferred" ∧
    (override2 (callMeta cForwardedFail) defaultUnknownGpt).transferReason = some "other" ∧
    some "unknown" ≠ some "transferred" := by
  decide

/-! ## Claim C8 — the four-way AND of the booking feature. -/

/-- An analysis object carrying only a parsed success evaluation. -/
def evalArtifact (ev : SuccessEval) : AnalysisRec :=
  { artifact := none, successEvaluation := some (SuccessEvalField.parsed ev) }

/-- A call whose only booking signal is its success evaluation. -/
def evalOnlyCall (ev : SuccessEval) : CallRecord :=
  { id := "x", analysis := some (evalArtifact ev) }

/-- C8: on a call whose only signal is a success-evaluation payload the
appointment-booked feature equals successEvalBooked; that is true only
when the payload says call_success yes AND the lowercased outcome mentions
an appointment or consultation term AND a scheduled, confirmed or booked
term AND does not mention "transferred"; in particular any payload whose
outcome mentions "transferred" — a successful transfer — never sets the
feature. -/
theorem successEval_transfer_guard (ev : SuccessEval) :
    (enrichAppointmentBooked (evalOnlyCall ev) = successEvalBooked ev) ∧
    (successEvalBooked ev = true →
      ev.call_success = some "yes" ∧
      (jsIncludes (jsToLower (jsOrStr ev.final_outcome "")) "appointment" = true ∨
        jsIncludes (jsToLower (jsOrStr ev.final_outcome "")) "consultation" = true) ∧
      (jsIncludes (jsToLower (jsOrStr ev.final_outcome "")) "scheduled" = true ∨
        jsIncludes (jsToLower (jsOrStr ev.final_outcome "")) "confirmed" = true ∨
        jsIncludes (jsToLower (jsOrStr ev.final_outcome "")) "booked" = true) ∧
      jsIncludes (jsToLower (jsOrStr ev.final_outcome "")) "transferred" = false) ∧
    (jsIncludes (jsToLower (jsOrStr ev.final_outcome "")) "transferred" = true →
      successEvalBooked ev = false) := by
  refine ⟨?_, ?_, ?_⟩
  · simp [enrichAppointmentBooked, evalOnlyCall, evalArtifact]
  · intro h
    unfold successEvalBooked at h
    simp only [Bool.and_eq_true, Bool.or_eq_true, Bool.not_eq_true', beq_iff_eq] at h
    tauto
  · intro h
    unfold successEvalBooked
    simp [h]

/-- A success evaluation describing a confirmed appointment. -/
def evBookedEx : SuccessEval :=
  { call_success := some "yes",
    final_outcome := some "Appointment scheduled and confirmed for Tuesday" }

/-- A success evaluation describing a successful transfer. -/
def evTransferEx : SuccessEval :=
  { call_success := some "yes",
    final_outcome := some "Customer was successfully transferred to the scheduling department" }

/-- Witness for successEval_transfer_guard: the booked payload satisfies
the feature and the successful-transfer payload never does. -/
theorem successEval_transfer_guard_witness :
    successEvalBooked evBookedEx = true ∧
    evBookedEx.call_success = some "yes" ∧
    jsIncludes (jsToLower (jsOrStr evTransferEx.final_outcome "")) "transferred" = true ∧
    successEvalBooked evTransferEx = false := by
  refine ⟨by decide, ((successEval_transfer_guard evBookedEx).2.1 (by decide)).1, by decide,
    (successEval_transfer_guard evTransferEx).2.2 (by decide)⟩

/-! ## Claims C5 and C10 — the classification store. -/

/-- Looking up the key just set yields the new value. -/
theorem lookup_setKey_self (m : List (String × α)) (k : String) (v : α) :
    (setKey m k v).lookup k = some v := by
  induction m with
  | nil => simp [setKey]
  | cons a t ih =>
    obtain ⟨k1, v1⟩ := a
    by_cases h : k1 = k
    · subst h
      simp [setKey]
    · have hb : (k1 == k) = false := beq_eq_false_iff_ne.mpr h
      have hb2 : (k == k1) = false := beq_eq_false_iff_ne.mpr (Ne.symm h)
      simp [setKey, hb, hb2, List.lookup, ih]

/-- Setting one key leaves every other key unchanged. -/
theorem lookup_setKey_ne (m : List (String × α)) (k j : String) (v : α) (h : j ≠ k) :
    (setKey m k v).lookup j = m.lookup j := by
  have hjk : (j == k) = false := beq_eq_false_iff_ne.mpr h
  induction m with
  | nil => simp [setKey, List.lookup, hjk]
  | cons a t ih =>
    obtain ⟨k1, v1⟩ := a
    by_cases h1 : k1 = k
    · subst h1
      simp [setKey, List.lookup, hjk]
    · have hb : (k1 == k) = false := beq_eq_false_iff_ne.mpr h1
      simp [setKey, hb, List.lookup, ih]

/-- Setting the same key twice keeps only the later value. -/
theorem setKey_setKey (m : List (String × α)) (k : String) (v w : α) :
    setKey (setKey m k v) k w = setKey m k w := by
  induction m with
  | nil => simp [setKey]
  | cons a t ih =>
    obtain ⟨k1, v1⟩ := a
    by_cases h : k1 = k
    · subst h
      simp [setKey]
    · have hb : (k1 == k) = false := beq_eq_false_iff_ne.mpr h
      simp [setKey, hb, ih]

/-- The keys after setKey are the old keys together with the new key. -/
theorem mem_keys_setKey (m : List (String × α)) (k j : String) (v : α) :
    j ∈ (setKey m k v).map Prod.fst ↔ j ∈ m.map Prod.fst ∨ j = k := by
  induction m with
  | nil => simp [setKey]
  | cons a t ih =>
    obtain ⟨k1, v1⟩ := a
    by_cases h : k1 = k
    · subst h
      simp [setKey]
      tauto
    · have hb : (k1 == k) = false := beq_eq_false_iff_ne.mpr h
      simp [setKey, hb, ih]
      tauto

/-- setKey preserves key uniqueness. -/
theorem nodup_keys_setKey (m : List (String × α)) (k : String) (v : α)
    (h : (m.map Prod.fst).Nodup) : ((setKey m k v).map Prod.fst).Nodup := by
  induction m with
  | nil => simp [setKey]
  | cons a t ih =>
    obtain ⟨k1, v1⟩ := a
    simp only [List.map_cons, List.nodup_cons] at h
    by_cases hk : k1 = k
    · subst hk
      have hrw : setKey ((k1, v1) :: t) k1 v = (k1, v) :: t := by simp [setKey]
      rw [hrw]
      simp only [List.map_cons, List.nodup_cons]
      exact ⟨h.1, h.2⟩
    · have hb : (k1 == k) = false := beq_eq_false_iff_ne.mpr hk
      have hrw : setKey ((k1, v1) :: t) k v = (k1, v1) :: setKey t k v := by simp [setKey, hb]
      rw [hrw]
      simp only [List.map_cons, List.nodup_cons]
      refine ⟨fun hmem => ?_, ih h.2⟩
      rcases (mem_keys_setKey t k k1 v).mp hmem with hm | hm
      · exact h.1 hm
      · exact hk hm

/-- An object without the key has no entry counted for it. -/
theorem countP_keys_eq_zero (m : List (String × α)) (k : String)
    (h : k ∉ m.map Prod.fst) : m.countP (fun kv => kv.1 == k) = 0 := by
  induction m with
  | nil => simp
  | cons a t ih =>
    obtain ⟨k1, v1⟩ := a
    simp only [List.map_cons, List.mem_cons] at h
    push_neg at h
    have hb : (k1 == k) = false := beq_eq_false_iff_ne.mpr (Ne.symm h.1)
    simp [List.countP_cons, hb, ih h.2]

/-- After setKey into an object with unique keys, exactly one entry holds
the key. -/
theorem countP_setKey_one (m : List (String × α)) (k : String) (v : α)
    (h : (m.map Prod.fst).Nodup) :
    ((setKey m k v).countP (fun kv => kv.1 == k)) = 1 := by
  induction m with
  | nil => simp [setKey, List.countP_cons]
  | cons a t ih =>
    obtain ⟨k1, v1⟩ := a
    simp only [List.map_cons, List.nodup_cons] at h
    by_cases hk : k1 = k
    · subst hk
      have hrw : setKey ((k1, v1) :: t) k1 v = (k1, v) :: t := by simp [setKey]
      rw [hrw]
      have ht : t.countP (fun kv => kv.1 == k1) = 0 := countP_keys_eq_zero t k1 h.1
      simp [List.countP_cons, ht]
    · have hb : (k1 == k) = false := beq_eq_false_iff_ne.mpr hk
      have hrw : setKey ((k1, v1) :: t) k v = (k1, v1) :: setKey t k v := by simp [setKey, hb]
      rw [hrw]
      simp [List.countP_cons, hb, ih h.2]

/-- Saving one timestamped enrichment merges it into the daily file of its
date key and reports one saved record. -/
theorem saveEnrichments_single (e : Enrichment)
    (store : List (String × List (String × Enrichment))) (d : String)
    (hc : e.createdAt = some d) (hd : d ≠ "") :
    saveEnrichments [e] store =
      (setKey store (dateKeyOf d)
        (setKey ((store.lookup (dateKeyOf d)).getD []) e.callId e), 1) := by
  have hb : (d == "") = false := beq_eq_false_iff_ne.mpr hd
  unfold saveEnrichments groupByDate groupStep spreadMerge
  simp [hc, hb, hd, setKey]

/-- C5: saving the same call identifier twice with different
classifications leaves exactly one record for it in the daily file, the
later enrichment wins, every other identifier in that file is preserved,
and every other daily file is untouched — merge-on-write, never
truncate-on-write. -/
theorem merge_last_write_wins
    (store : List (String × List (String × Enrichment))) (e1 e2 : Enrichment) (d : String)
    (hid : e2.callId = e1.callId)
    (hc1 : e1.createdAt = some d) (hc2 : e2.createdAt = some d) (hd : d ≠ "")
    (hnd : (((store.lookup (dateKeyOf d)).getD []).map Prod.fst).Nodup) :
    ((((saveEnrichments [e2] (saveEnrichments [e1] store).1).1.lookup (dateKeyOf d)).getD
      []).countP (fun kv => kv.1 == e1.callId)) = 1 ∧
    (((saveEnrichments [e2] (saveEnrichments [e1] store).1).1.lookup (dateKeyOf d)).getD
      []).lookup e1.callId = some e2 ∧
    (∀ j, j ≠ e1.callId →
      (((saveEnrichments [e2] (saveEnrichments [e1] store).1).1.lookup (dateKeyOf d)).getD
        []).lookup j = ((store.lookup (dateKeyOf d)).getD []).lookup j) ∧
    (∀ dk, dk ≠ dateKeyOf d →
      (saveEnrichments [e2] (saveEnrichments [e1] store).1).1.lookup dk = store.lookup dk) := by
  have h1 := saveEnrichments_single e1 store d hc1 hd
  have hstore1 : (saveEnrichments [e1] store).1 =
      setKey store (dateKeyOf d)
        (setKey ((store.lookup (dateKeyOf d)).getD []) e1.callId e1) := by
    rw [h1]
  have h2 := saveEnrichments_single e2 (saveEnrichments [e1] store).1 d hc2 hd
  have hlook1 : (((saveEnrichments [e1] store).1.lookup (dateKeyOf d)).getD []) =
      setKey ((store.lookup (dateKeyOf d)).getD []) e1.callId e1 := by
    rw [hstore1, lookup_setKey_self]
    rfl
  have hstore2 : (saveEnrichments [e2] (saveEnrichments [e1] store).1).1 =
      setKey (saveEnrichments [e1] store).1 (dateKeyOf d)
        (setKey ((store.lookup (dateKeyOf d)).getD []) e1.callId e2) := by
    rw [h2, hlook1, hid, setKey_setKey]
  have hfile : (((saveEnrichments [e2] (saveEnrichments [e1] store).1).1.lookup
      (dateKeyOf d)).getD []) =
      setKey ((store.lookup (dateKeyOf d)).getD []) e1.callId e2 := by
    rw [hstore2, lookup_setKey_self]
    rfl
  refine ⟨?_, ?_, ?_, ?_⟩
  · rw [hfile]
    exact countP_setKey_one _ _ _ hnd
  · rw [hfile]
    exact lookup_setKey_self _ _ _
  · intro j hj
    rw [hfile]
    exact lookup_setKey_ne _ _ _ _ hj
  · intro dk hdk
    rw [hstore2, lookup_setKey_ne _ _ _ _ hdk, hstore1, lookup_setKey_ne _ _ _ _ hdk]

/-- An enrichment without a truthy createdAt leaves the grouping
accumulator untouched. -/
theorem groupStep_skip (acc : List (String × List (String × Enrichment))) (e : Enrichment)
    (h : jsTruthy e.createdAt = false) : groupStep acc e = acc := by
  unfold groupStep
  cases hca : e.createdAt with
  | none => rfl
  | some ca =>
    rw [hca] at h
    have h2 : ca = "" := by simpa [jsTruthy] using h
    simp [h2]

/-- The grouping loop only sees the enrichments with a truthy createdAt. -/
theorem foldl_groupStep_filter (es : List Enrichment)
    (acc : List (String × List (String × Enrichment))) :
    es.foldl groupStep acc = (es.filter (fun e => jsTruthy e.createdAt)).foldl groupStep acc := by
  induction es generalizing acc with
  | nil => rfl
  | cons e t ih =>
    cases he : jsTruthy e.createdAt
    · rw [List.foldl_cons, groupStep_skip acc e he]
      simp only [List.filter_cons, he]
      exact ih acc
    · simp only [List.filter_cons, he, List.foldl_cons]
      exact ih (groupStep acc e)

/-- C10: saveEnrichments behaves exactly as if every enrichment without a
truthy createdAt had been removed from the batch — such an enrichment is
written to no daily file, leaves the whole store unchanged, and is
excluded from the returned saved count. -/
theorem save_skips_untimestamped :
    (∀ (es : List Enrichment) (store : List (String × List (String × Enrichment))),
      saveEnrichments es store =
        saveEnrichments (es.filter (fun e => jsTruthy e.createdAt)) store) ∧
    (∀ (es1 es2 : List Enrichment) (e : Enrichment)
      (store : List (String × List (String × Enrichment))),
      jsTruthy e.createdAt = false →
      saveEnrichments (es1 ++ e :: es2) store = saveEnrichments (es1 ++ es2) store) := by
  have hgb : ∀ es : List Enrichment,
      groupByDate es = groupByDate (es.filter (fun e => jsTruthy e.createdAt)) :=
    fun es => foldl_groupStep_filter es []
  constructor
  · intro es store
    unfold saveEnrichments
    rw [hgb]
  · intro es1 es2 e store h
    unfold saveEnrichments
    rw [hgb (es1 ++ e :: es2), hgb (es1 ++ es2)]
    congr 2
    simp [List.filter_append, List.filter_cons, h]

/-- An enrichment with no creation timestamp at all. -/
def enrNoCreated : Enrichment :=
  { callId := "call-x", createdAt := none, enrichedAt := "t", model := "gpt-4o-mini",
    classification := { category := some "unknown", hangupType := none, transferReason := none,
                        spamType := none, bookingStatus := "none" } }

/-- Witness for save_skips_untimestamped: an enrichment without createdAt
is persisted nowhere and counted as zero saved records. -/
theorem save_skips_untimestamped_witness :
    jsTruthy enrNoCreated.createdAt = false ∧
    saveEnrichments [enrNoCreated] [] = ([], 0) ∧
    saveEnrichments ([] ++ enrNoCreated :: []) [] = saveEnrichments ([] ++ []) [] :=
  ⟨rfl, by decide, save_skips_untimestamped.2 [] [] enrNoCreated [] rfl⟩

/-- A first classification for call-1. -/
def enr1 : Enrichment :=
  { callId := "call-1", createdAt := some "2026-02-02T09:00:00.000Z", enrichedAt := "t1",
    model := "gpt-4o-mini",
    classification := { category := some "spam", hangupType := none, transferReason := none,
                        spamType := some "short-call", bookingStatus := "none" } }

/-- A later, different classification for the same call-1. -/
def enr2 : Enrichment :=
  { callId := "call-1", createdAt := some "2026-02-02T09:00:00.000Z", enrichedAt := "t2",
    model := "gpt-4o-mini",
    classification := { category := some "hangup", hangupType := some "moderate",
                        transferReason := none, spamType := none, bookingStatus := "none" } }

/-- Witness for merge_last_write_wins: saving call-1 twice with different
classifications leaves exactly one record, holding the later one. -/
theorem merge_last_write_wins_witness :
    enr2.callId = enr1.callId ∧ enr1.classification ≠ enr2.classification ∧
    ((((saveEnrichments [enr2] (saveEnrichments [enr1] []).1).1.lookup
      (dateKeyOf "2026-02-02T09:00:00.000Z")).getD []).countP
        (fun kv => kv.1 == enr1.callId)) = 1 ∧
    (((saveEnrichments [enr2] (saveEnrichments [enr1] []).1).1.lookup
      (dateKeyOf "2026-02-02T09:00:00.000Z")).getD []).lookup enr1.callId = some enr2 := by
  have h := merge_last_write_wins [] enr1 enr2 "2026-02-02T09:00:00.000Z" rfl rfl rfl
    (by decide) (by simp)
  exact ⟨rfl, by decide, h.1, h.2.1⟩
